import Mathlib

/-!
Shallow embedding of `app.py` (LotteryGeniusApp), the single source file of the
repository: a Flask service that fetches Lotofácil draws from the Caixa API,
aggregates number frequencies, generates weighted random tickets and analyses
them.  Python integers are modelled by `Int`, counts by `Nat` where the source
can only ever hold non-negative values and by `Int` where non-negativity is a
property to be proved.  The outcomes of `random.choices` / `random.sample` and
of the network requests are nondeterministic; they are modelled as explicit
parameters, quantified over all outcomes that the corresponding Python library
call can produce.
-/

/-! ### Special number sets (app.py lines 13-21) -/

def PRIMOS : List Int := [2, 3, 5, 7, 11, 13, 17, 19, 23]

def FIBONACCI : List Int := [1, 2, 3, 5, 8, 13, 21]

def BORDAS : List Int :=
  [1, 2, 3, 4, 5, 6, 10, 11, 15, 16, 20, 21, 22, 23, 24, 25]

/-! ### Ticket analysis (app.py lines 27-44, `analisar_jogo`) -/

structure Analise where
  pares : Nat
  impares : Nat
  primos : Nat
  fibonacci : Nat
  borda : Nat
  baixos : Nat
  altos : Nat
deriving DecidableEq, Repr

/-- `analisar_jogo(jogo)`: each `sum(1 for n in jogo if cond)` is the length of
the corresponding filter; `impares` and `altos` are computed by subtraction
exactly as in the source (lines 29 and 34). -/
def analisar_jogo (jogo : List Int) : Analise :=
  let pares := (jogo.filter (fun n => n % 2 == 0)).length
  let baixos := (jogo.filter (fun n => decide (n ≤ 13))).length
  { pares := pares
    impares := jogo.length - pares
    primos := (jogo.filter (fun n => decide (n ∈ PRIMOS))).length
    fibonacci := (jogo.filter (fun n => decide (n ∈ FIBONACCI))).length
    borda := (jogo.filter (fun n => decide (n ∈ BORDAS))).length
    baixos := baixos
    altos := jogo.length - baixos }

/-! ### Number universe and sampling weights (app.py lines 150-151) -/

/-- `numeros = list(range(1, 26))` (app.py line 150). -/
def numeros : List Int := (List.range' 1 25).map (fun n : Nat => (n : Int))

/-- `pesos = [frequencias.get(n, 0) + 1 for n in numeros]` (app.py line 151).
`frequencias : Int → Int` models the dictionary lookup `frequencias.get(n, 0)`
(a total function returning 0 for missing keys). -/
def pesos (frequencias : Int → Int) : List Int :=
  numeros.map (fun n => frequencias n + 1)

/-- The weight `random.choices` is given for the number `n`: the entry of
`pesos` paired with `n` in the position-wise pairing of `population = numeros`
with `weights = pesos` (app.py lines 157-161). -/
def weightFor (frequencias : Int → Int) (n : Int) : Option Int :=
  ((numeros.zip (pesos frequencias)).find? (fun p => p.1 == n)).map (fun p => p.2)
/-! ### Weighted ticket generation (app.py lines 141-190, `gerar_jogos`)

`random.choices(population=numeros, weights=pesos, k=2*dezenas_por_jogo)` is
nondeterministic; its outcome is modelled by an explicit list `bruto` whose
elements `random.choices` guarantees to come from the population.  Likewise
`random.sample(restantes, j)` is modelled by a function `sample` subject to
`SampleSpec`: on any request `j ≤ length` from a duplicate-free pool it
returns `j` distinct elements of the pool. -/

/-- The dedup loop of app.py lines 164-171: walk the raw sample, appending
first occurrences (`vistos` always holds exactly the elements of `unicos`, so
it is represented by `unicos` itself), and stop as soon as `unicos` reaches
`dezenas_por_jogo` elements (the `break` is checked after each iteration's
conditional append, exactly as in the source). -/
def scanUnicos (k : Nat) : List Int → List Int → List Int
  | [], unicos => unicos
  | n :: resto, unicos =>
    let unicos' := if n ∈ unicos then unicos else unicos ++ [n]
    if unicos'.length = k then unicos' else scanUnicos k resto unicos'

/-- `restantes = [n for n in numeros if n not in vistos]` (app.py line 175). -/
def restantes (unicos : List Int) : List Int :=
  numeros.filter (fun n => decide (n ∉ unicos))

/-- Contract of `random.sample(l, j)` for `j ≤ len(l)` on a duplicate-free
pool: `j` pairwise-distinct elements of `l`. -/
def SampleSpec (sample : List Int → Nat → List Int) : Prop :=
  ∀ l j, j ≤ l.length → l.Nodup →
    (sample l j).length = j ∧ (sample l j).Nodup ∧ ∀ x ∈ sample l j, x ∈ l

/-- One iteration of the generation loop (app.py lines 156-180): dedup-scan of
the raw weighted sample, fill from the remainder when needed and when enough
numbers remain (lines 174-178), then sort ascending (line 180). -/
def gerar_jogo (k : Nat) (bruto : List Int)
    (sample : List Int → Nat → List Int) : List Int :=
  let unicos := scanUnicos k bruto []
  let unicos2 :=
    if unicos.length < k then
      if k - unicos.length ≤ (restantes unicos).length then
        unicos ++ sample (restantes unicos) (k - unicos.length)
      else unicos
    else unicos
  List.insertionSort (· ≤ ·) unicos2

structure Jogo where
  dezenas : List Int
  analise : Analise
deriving DecidableEq, Repr

/-- `gerar_jogos(qtd_jogos, dezenas_por_jogo, frequencias)` (app.py lines
141-190).  `frequencias` only shapes the distribution that `random.choices`
draws from; the drawn outcomes themselves are modelled by `brutoSeq i` (the
raw sample of loop iteration `i`) and `sampleSeq i` (that iteration's
`random.sample`). -/
def gerar_jogos (qtd_jogos dezenas_por_jogo : Nat) (frequencias : Int → Int)
    (brutoSeq : Nat → List Int)
    (sampleSeq : Nat → List Int → Nat → List Int) : List Jogo :=
  let _pesos := pesos frequencias
  (List.range qtd_jogos).map (fun i =>
    let dezenas := gerar_jogo dezenas_por_jogo (brutoSeq i) (sampleSeq i)
    { dezenas := dezenas, analise := analisar_jogo dezenas })

/-- `random.sample` modelled as taking the first `j` elements of the pool:
one concrete sampler satisfying `SampleSpec`, used by the witnesses. -/
def takeSample (l : List Int) (j : Nat) : List Int := l.take j

/-! ### Fetching the latest results (app.py lines 61-135,
`carregar_ultimos_resultados`)

Network requests are nondeterministic and can raise; the whole
`requests.get`/`raise_for_status`/`.json()` chain for one request is modelled
by an `Except String` value: `Except.error` when any of them raised (network
error, non-2xx status, malformed JSON), `Except.ok` with the decoded payload
otherwise.  A decoded draw-number entry is modelled by `Option Int`: `some n`
when `int(d)` succeeds with value `n`, `none` when it raises
`TypeError`/`ValueError`. -/

/-- The decoded JSON payload of the latest-contest request, restricted to the
fields app.py reads.  `numero` is the result of `int(dados_ultimo.get("numero"))`:
`none` when the field is missing or not convertible to an integer (in which
case line 80 raises and the `except` at line 87 triggers). -/
structure PayloadUltimo where
  numero : Option Int
  listaDezenas : Option (List (Option Int))
  dezenasSorteadasOrdemSorteio : Option (List (Option Int))
  dataApuracao : Option String
deriving DecidableEq, Repr

/-- `ultimo_resultado` dictionary (app.py lines 99-103). -/
structure UltimoResultado where
  concurso : Int
  data : Option String
  dezenas : List Int
deriving DecidableEq, Repr

/-- Python's `a or b` on an optional list field: `None` and the empty list are
falsy, so they fall through to `b` (app.py lines 81-85 and 116-120). -/
def orFalsy (a : Option (List (Option Int))) (b : List (Option Int)) :
    List (Option Int) :=
  match a with
  | none => b
  | some l => if l.isEmpty then b else l

/-- app.py lines 91-97: collect the entries for which `int(d)` succeeds,
skipping the ones that raise (`continue`), then sort ascending. -/
def parse_dezenas (raw : List (Option Int)) : List Int :=
  List.insertionSort (· ≤ ·) (raw.filterMap id)

/-- app.py lines 122-128: the inner loop of the frequency pass over one
contest's raw numbers.  Entries whose `int(d)` raises are skipped; parsed
values are counted only when `1 <= n <= 25`.  The `Counter` is modelled as a
total function `Int → Int` (`contador.get(n, 0)` semantics); counts are `Int`
so that their non-negativity is a proved property, not a typing artifact. -/
def contadorRaw : (Int → Int) → List (Option Int) → Int → Int
  | cnt, [] => cnt
  | cnt, none :: rest => contadorRaw cnt rest
  | cnt, some n :: rest =>
    if 1 ≤ n ∧ n ≤ 25 then
      contadorRaw (fun m => if m = n then cnt m + 1 else cnt m) rest
    else contadorRaw cnt rest

/-- app.py lines 109-131: the per-contest loop.  `fetchConcurso` models the
request chain of lines 111-114 together with the `dezenas_raw` extraction of
lines 116-120 (the `or`-fallback over the two list fields, as in `orFalsy`);
a failed request (`except` at line 129) leaves the counter untouched
(`continue`). -/
def contadorConcursos : (Int → Int) → List Int →
    (Int → Except String (List (Option Int))) → Int → Int
  | cnt, [], _ => cnt
  | cnt, concurso :: rest, fetchConcurso =>
    match fetchConcurso concurso with
    | .error _ => contadorConcursos cnt rest fetchConcurso
    | .ok dezenas_raw => contadorConcursos (contadorRaw cnt dezenas_raw) rest fetchConcurso

/-- `range(a, b)` over Python integers. -/
def intRange (a b : Int) : List Int :=
  (List.range (b - a).toNat).map (fun i => a + (i : Int))

/-- `{n: 0 for n in range(1, 26)}` (app.py lines 77 and 89): the table
returned on the failure paths. -/
def freq_zero : List (Int × Int) := numeros.map (fun n => (n, 0))

/-- `frequencias = {n: contador.get(n, 0) for n in range(1, 26)}` (app.py
line 133): an association list with exactly the keys 1..25, in order. -/
def frequencias_de (cnt : Int → Int) : List (Int × Int) :=
  numeros.map (fun n => (n, cnt n))

/-- `carregar_ultimos_resultados(qtd_concursos)` (app.py lines 61-135).
`respUltimo` models the latest-contest request chain of lines 72-74;
`fetchConcurso` models the per-contest request chain of lines 111-114. -/
def carregar_ultimos_resultados (qtd_concursos : Int)
    (respUltimo : Except String PayloadUltimo)
    (fetchConcurso : Int → Except String (List (Option Int))) :
    Option UltimoResultado × List (Int × Int) :=
  match respUltimo with
  | .error _ => (none, freq_zero)
  | .ok dados =>
    match dados.numero with
    | none => (none, freq_zero)
    | some numero_ultimo =>
      let dezenas_raw :=
        orFalsy dados.listaDezenas (orFalsy dados.dezenasSorteadasOrdemSorteio [])
      let dezenas_ultimo := parse_dezenas dezenas_raw
      let ultimo : UltimoResultado :=
        { concurso := numero_ultimo, data := dados.dataApuracao,
          dezenas := dezenas_ultimo }
      let primeiro_concurso := max 1 (numero_ultimo - qtd_concursos + 1)
      let contador := contadorConcursos (fun _ => 0)
        (intRange primeiro_concurso (numero_ultimo + 1)) fetchConcurso
      (some ultimo, frequencias_de contador)

/-- app.py lines 71-77 perform exactly one `requests.get` for the latest
result: there is no retry loop.  The outcomes the upstream would hand to
successive attempts are modelled by the stream `attempts`; the code consumes
only `attempts 0`, and the second component records the number of attempts
performed (structurally 1). -/
def fetch_ultimo (attempts : Nat → Except String PayloadUltimo) :
    Except String PayloadUltimo × Nat :=
  (attempts 0, 1)

/-- One full call of `carregar_ultimos_resultados` together with the number of
latest-result requests it performed. -/
def carregar_com_tentativas (qtd_concursos : Int)
    (attempts : Nat → Except String PayloadUltimo)
    (fetchConcurso : Int → Except String (List (Option Int))) :
    (Option UltimoResultado × List (Int × Int)) × Nat :=
  ((carregar_ultimos_resultados qtd_concursos (fetch_ultimo attempts).1
      fetchConcurso),
   (fetch_ultimo attempts).2)

/-- Two consecutive requests to the service: `index()` (app.py line 220) calls
`carregar_ultimos_resultados` afresh on every request — app.py has no cache —
so the second call consumes the upstream attempt stream after the first call's
consumption.  The final component is the total number of latest-result
requests performed. -/
def duas_chamadas (qtd_concursos : Int)
    (attempts : Nat → Except String PayloadUltimo)
    (fetchConcurso : Int → Except String (List (Option Int))) :
    ((Option UltimoResultado × List (Int × Int)) ×
     (Option UltimoResultado × List (Int × Int))) × Nat :=
  let r1 := carregar_com_tentativas qtd_concursos attempts fetchConcurso
  let r2 := carregar_com_tentativas qtd_concursos
    (fun i => attempts (r1.2 + i)) fetchConcurso
  ((r1.1, r2.1), r1.2 + r2.2)

/-- A well-formed latest-contest payload (contest 100), used as the outcome
of a hypothetical second upstream attempt. -/
def payloadA : PayloadUltimo :=
  ⟨some 100, some [some 1, some 2], none, some "01/10/2025"⟩

/-- A second well-formed latest-contest payload (contest 200), distinct from
`payloadA`. -/
def payloadB : PayloadUltimo :=
  ⟨some 200, some [some 3], none, some "02/10/2025"⟩

theorem mem_numeros (x : Int) : x ∈ numeros ↔ 1 ≤ x ∧ x ≤ 25 := by
  unfold numeros
  rw [List.mem_map]
  constructor
  · rintro ⟨n, hn, rfl⟩
    rw [List.mem_range'_1] at hn
    omega
  · rintro ⟨h1, h2⟩
    refine ⟨x.toNat, ?_, by omega⟩
    rw [List.mem_range'_1]
    omega

theorem numeros_nodup : numeros.Nodup := by decide

theorem numeros_length : numeros.length = 25 := by decide

/-- C2: For every ticket (any list of integers), the even and odd counts sum to
the ticket's size, and the low (≤ 13) and high counts sum to the ticket's
size. -/
theorem analisar_jogo_partition (jogo : List Int) :
    (analisar_jogo jogo).pares + (analisar_jogo jogo).impares = jogo.length ∧
    (analisar_jogo jogo).baixos + (analisar_jogo jogo).altos = jogo.length := by
  constructor <;>
    simp only [analisar_jogo] <;>
    exact Nat.add_sub_cancel' (List.length_filter_le _ _)

/-- C3: the sampling weight the generator assigns to each `n ∈ [1, 25]` is
`frequencias.get(n, 0) + 1`; for a table of non-negative counts it is strictly
positive, and for the all-zero table it is 1. -/
theorem pesos_spec (frequencias : Int → Int) (n : Int)
    (h1 : 1 ≤ n) (h2 : n ≤ 25) (hnn : 0 ≤ frequencias n) :
    weightFor frequencias n = some (frequencias n + 1) ∧
    0 < frequencias n + 1 ∧
    weightFor (fun _ => 0) n = some 1 := by
  refine ⟨?_, by omega, ?_⟩ <;>
  · interval_cases n <;> rfl

theorem pesos_spec_witness :
    weightFor (fun m => if m = 7 then 4 else 0) 7 = some 5 ∧
    (0 : Int) < 5 ∧
    weightFor (fun _ => 0) 7 = some 1 := by
  have h := pesos_spec (fun m => if m = 7 then 4 else 0) 7
    (by decide) (by decide) (by decide)
  simpa using h
theorem takeSample_spec : SampleSpec takeSample := by
  intro l j hj hnd
  refine ⟨?_, ?_, ?_⟩
  · simpa [takeSample] using hj
  · exact hnd.sublist (List.take_sublist j l)
  · intro x hx
    exact List.take_subset j l hx

theorem scanUnicos_mem (k : Nat) (bruto : List Int) :
    ∀ (unicos : List Int), ∀ x ∈ scanUnicos k bruto unicos, x ∈ unicos ∨ x ∈ bruto := by
  induction bruto with
  | nil => intro unicos x hx; exact Or.inl hx
  | cons n resto ih =>
    intro unicos x hx
    simp only [scanUnicos] at hx
    by_cases hmem : n ∈ unicos <;> simp only [hmem, if_true, if_false] at hx
    · split at hx
      · exact Or.inl hx
      · rcases ih unicos x hx with h | h
        · exact Or.inl h
        · exact Or.inr (List.mem_cons_of_mem n h)
    · split at hx
      · rcases List.mem_append.mp hx with h | h
        · exact Or.inl h
        · exact Or.inr (List.mem_cons.mpr (Or.inl (List.mem_singleton.mp h)))
      · rcases ih (unicos ++ [n]) x hx with h | h
        · rcases List.mem_append.mp h with h' | h'
          · exact Or.inl h'
          · exact Or.inr (List.mem_cons.mpr (Or.inl (List.mem_singleton.mp h')))
        · exact Or.inr (List.mem_cons_of_mem n h)

theorem scanUnicos_nodup (k : Nat) (bruto : List Int) :
    ∀ (unicos : List Int), unicos.Nodup → (scanUnicos k bruto unicos).Nodup := by
  induction bruto with
  | nil => intro unicos h; exact h
  | cons n resto ih =>
    intro unicos h
    simp only [scanUnicos]
    by_cases hmem : n ∈ unicos <;> simp only [hmem, if_true, if_false]
    · split
      · exact h
      · exact ih unicos h
    · have h' : (unicos ++ [n]).Nodup := by
        rw [List.nodup_append]
        exact ⟨h, List.nodup_singleton n,
          fun a ha hn => hmem (List.mem_singleton.mp hn ▸ ha)⟩
      split
      · exact h'
      · exact ih (unicos ++ [n]) h'

theorem scanUnicos_length_le (k : Nat) (bruto : List Int) :
    ∀ (unicos : List Int), unicos.length < k → (scanUnicos k bruto unicos).length ≤ k := by
  induction bruto with
  | nil => intro unicos h; exact Nat.le_of_lt h
  | cons n resto ih =>
    intro unicos h
    simp only [scanUnicos]
    by_cases hmem : n ∈ unicos <;> simp only [hmem, if_true, if_false]
    · split
      · omega
      · exact ih unicos h
    · split
      · rename_i heq
        exact Nat.le_of_eq heq
      · rename_i hne
        apply ih (unicos ++ [n])
        have hlen : (unicos ++ [n]).length = unicos.length + 1 := by simp
        rw [hlen] at hne ⊢
        omega

theorem mem_restantes (u : List Int) (x : Int) :
    x ∈ restantes u ↔ x ∈ numeros ∧ x ∉ u := by
  simp [restantes, List.mem_filter]

theorem restantes_nodup (u : List Int) : (restantes u).Nodup :=
  numeros_nodup.filter _

theorem restantes_length_ge (u : List Int) :
    25 - u.length ≤ (restantes u).length := by
  have hpart := List.length_eq_length_filter_add (l := numeros)
    (fun n => decide (n ∉ u))
  have hsub : (numeros.filter (fun n => !decide (n ∉ u))) ⊆ u := by
    intro x hx
    have h := List.mem_filter.mp hx
    simpa using h.2
  have hnd : (numeros.filter (fun n => !decide (n ∉ u))).Nodup :=
    numeros_nodup.filter _
  have hle := (List.subperm_of_subset hnd hsub).length_le
  rw [numeros_length] at hpart
  unfold restantes
  omega

theorem gerar_jogo_spec (k : Nat) (bruto : List Int)
    (sample : List Int → Nat → List Int)
    (hk0 : 1 ≤ k) (hk : k ≤ 25)
    (hb : ∀ x ∈ bruto, x ∈ numeros) (hs : SampleSpec sample) :
    (gerar_jogo k bruto sample).length = k ∧
    (gerar_jogo k bruto sample).Nodup ∧
    (∀ x ∈ gerar_jogo k bruto sample, 1 ≤ x ∧ x ≤ 25) ∧
    (gerar_jogo k bruto sample).Sorted (· ≤ ·) := by
  simp only [gerar_jogo]
  set u := scanUnicos k bruto [] with hu
  have hund : u.Nodup := scanUnicos_nodup k bruto [] List.nodup_nil
  have husub : ∀ x ∈ u, x ∈ numeros := by
    intro x hx
    rcases scanUnicos_mem k bruto [] x hx with h | h
    · exact absurd h (List.not_mem_nil x)
    · exact hb x h
  have hule : u.length ≤ k :=
    scanUnicos_length_le k bruto [] (by simp only [List.length_nil]; omega)
  by_cases hlt : u.length < k
  · have hg : k - u.length ≤ (restantes u).length := by
      have := restantes_length_ge u
      omega
    rw [if_pos hlt, if_pos hg]
    obtain ⟨hel, hend, hemem⟩ :=
      hs (restantes u) (k - u.length) hg (restantes_nodup u)
    have hnd2 : (u ++ sample (restantes u) (k - u.length)).Nodup := by
      rw [List.nodup_append]
      exact ⟨hund, hend,
        fun a ha hae => ((mem_restantes u a).mp (hemem a hae)).2 ha⟩
    have hmem2 : ∀ x ∈ u ++ sample (restantes u) (k - u.length), x ∈ numeros := by
      intro x hx
      rcases List.mem_append.mp hx with h | h
      · exact husub x h
      · exact ((mem_restantes u x).mp (hemem x h)).1
    refine ⟨?_, ?_, ?_, ?_⟩
    · rw [List.length_insertionSort, List.length_append, hel]
      omega
    · exact ((List.perm_insertionSort _ _).nodup_iff).mpr hnd2
    · intro x hx
      exact (mem_numeros x).mp (hmem2 x ((List.mem_insertionSort _).mp hx))
    · exact List.sorted_insertionSort _ _
  · rw [if_neg hlt]
    refine ⟨?_, ?_, ?_, ?_⟩
    · rw [List.length_insertionSort]
      omega
    · exact ((List.perm_insertionSort _ _).nodup_iff).mpr hund
    · intro x hx
      exact (mem_numeros x).mp (husub x ((List.mem_insertionSort _).mp hx))
    · exact List.sorted_insertionSort _ _

/-- C1: For every ticket count in [1, 50] and every ticket size in [15, 20],
and any frequency table, `gerar_jogos` returns exactly `qtd_jogos` tickets,
each consisting of exactly `dezenas_por_jogo` distinct integers in [1, 25],
sorted ascending — for every outcome of `random.choices` (elements drawn from
the population `numeros`) and of `random.sample` (satisfying `SampleSpec`),
including outcomes in which the fill-from-remainder step is needed. -/
theorem gerar_jogos_spec (qtd_jogos dezenas_por_jogo : Nat)
    (frequencias : Int → Int) (brutoSeq : Nat → List Int)
    (sampleSeq : Nat → List Int → Nat → List Int)
    (hq1 : 1 ≤ qtd_jogos) (hq2 : qtd_jogos ≤ 50)
    (hk1 : 15 ≤ dezenas_por_jogo) (hk2 : dezenas_por_jogo ≤ 20)
    (hb : ∀ i, i < qtd_jogos → ∀ x ∈ brutoSeq i, x ∈ numeros)
    (hs : ∀ i, i < qtd_jogos → SampleSpec (sampleSeq i)) :
    (gerar_jogos qtd_jogos dezenas_por_jogo frequencias brutoSeq sampleSeq).length
        = qtd_jogos ∧
    ∀ jogo ∈ gerar_jogos qtd_jogos dezenas_por_jogo frequencias brutoSeq sampleSeq,
      jogo.dezenas.length = dezenas_por_jogo ∧ jogo.dezenas.Nodup ∧
      (∀ x ∈ jogo.dezenas, 1 ≤ x ∧ x ≤ 25) ∧ jogo.dezenas.Sorted (· ≤ ·) := by
  constructor
  · simp [gerar_jogos]
  · intro jogo hj
    simp only [gerar_jogos, List.mem_map, List.mem_range] at hj
    obtain ⟨i, hi, rfl⟩ := hj
    simpa using gerar_jogo_spec dezenas_por_jogo (brutoSeq i) (sampleSeq i)
      (by omega) (by omega) (hb i hi) (hs i hi)

theorem gerar_jogos_spec_witness :
    (gerar_jogos 1 15 (fun _ => 0) (fun _ => List.replicate 30 7)
        (fun _ => takeSample)).length = 1 ∧
    ∀ jogo ∈ gerar_jogos 1 15 (fun _ => 0) (fun _ => List.replicate 30 7)
        (fun _ => takeSample),
      jogo.dezenas.length = 15 ∧ jogo.dezenas.Nodup ∧
      (∀ x ∈ jogo.dezenas, 1 ≤ x ∧ x ≤ 25) ∧ jogo.dezenas.Sorted (· ≤ ·) :=
  gerar_jogos_spec 1 15 (fun _ => 0) (fun _ => List.replicate 30 7)
    (fun _ => takeSample)
    (by decide) (by decide) (by decide) (by decide)
    (fun i _ x hx => by rw [List.eq_of_mem_replicate hx]; decide)
    (fun i _ => takeSample_spec)

theorem gerar_jogo_nodup_subset (k : Nat) (bruto : List Int)
    (sample : List Int → Nat → List Int)
    (hb : ∀ x ∈ bruto, x ∈ numeros) (hs : SampleSpec sample) :
    (gerar_jogo k bruto sample).Nodup ∧
    ∀ x ∈ gerar_jogo k bruto sample, x ∈ numeros := by
  simp only [gerar_jogo]
  set u := scanUnicos k bruto [] with hu
  have hund : u.Nodup := scanUnicos_nodup k bruto [] List.nodup_nil
  have husub : ∀ x ∈ u, x ∈ numeros := by
    intro x hx
    rcases scanUnicos_mem k bruto [] x hx with h | h
    · exact absurd h (List.not_mem_nil x)
    · exact hb x h
  split
  · split
    · rename_i hlt hg
      obtain ⟨hel, hend, hemem⟩ :=
        hs (restantes u) (k - u.length) hg (restantes_nodup u)
      constructor
      · refine ((List.perm_insertionSort _ _).nodup_iff).mpr ?_
        rw [List.nodup_append]
        exact ⟨hund, hend,
          fun a ha hae => ((mem_restantes u a).mp (hemem a hae)).2 ha⟩
      · intro x hx
        rcases List.mem_append.mp ((List.mem_insertionSort _).mp hx) with h | h
        · exact husub x h
        · exact ((mem_restantes u x).mp (hemem x h)).1
    · exact ⟨((List.perm_insertionSort _ _).nodup_iff).mpr hund,
        fun x hx => husub x ((List.mem_insertionSort _).mp hx)⟩
  · exact ⟨((List.perm_insertionSort _ _).nodup_iff).mpr hund,
      fun x hx => husub x ((List.mem_insertionSort _).mp hx)⟩

/-- C5 (amended): the generator performs no parameter validation and raises no
error: it is a total function.  For a ticket size exceeding the universe size
25 it still returns the requested number of tickets, but each of them has
fewer than `dezenas_por_jogo` numbers (the remainder pool cannot cover the
deficit and the fill guard at app.py line 176 simply skips the fill). -/
theorem gerar_jogos_oversize_no_failure (qtd_jogos dezenas_por_jogo : Nat)
    (frequencias : Int → Int) (brutoSeq : Nat → List Int)
    (sampleSeq : Nat → List Int → Nat → List Int)
    (hk : 25 < dezenas_por_jogo)
    (hb : ∀ i, i < qtd_jogos → ∀ x ∈ brutoSeq i, x ∈ numeros)
    (hs : ∀ i, i < qtd_jogos → SampleSpec (sampleSeq i)) :
    (gerar_jogos qtd_jogos dezenas_por_jogo frequencias brutoSeq sampleSeq).length
        = qtd_jogos ∧
    ∀ jogo ∈ gerar_jogos qtd_jogos dezenas_por_jogo frequencias brutoSeq sampleSeq,
      jogo.dezenas.length < dezenas_por_jogo := by
  constructor
  · simp [gerar_jogos]
  · intro jogo hj
    simp only [gerar_jogos, List.mem_map, List.mem_range] at hj
    obtain ⟨i, hi, rfl⟩ := hj
    obtain ⟨hnd, hsub⟩ := gerar_jogo_nodup_subset dezenas_por_jogo (brutoSeq i)
      (sampleSeq i) (hb i hi) (hs i hi)
    have hle := (List.subperm_of_subset hnd hsub).length_le
    rw [numeros_length] at hle
    show (gerar_jogo dezenas_por_jogo (brutoSeq i) (sampleSeq i)).length
      < dezenas_por_jogo
    omega

theorem gerar_jogos_oversize_no_failure_witness :
    (gerar_jogos 1 26 (fun _ => 0) (fun _ => numeros ++ numeros)
        (fun _ => takeSample)).length = 1 ∧
    ∀ jogo ∈ gerar_jogos 1 26 (fun _ => 0) (fun _ => numeros ++ numeros)
        (fun _ => takeSample),
      jogo.dezenas.length < 26 :=
  gerar_jogos_oversize_no_failure 1 26 (fun _ => 0)
    (fun _ => numeros ++ numeros) (fun _ => takeSample)
    (by decide)
    (fun i _ x hx => by
      rcases List.mem_append.mp hx with h | h <;> exact h)
    (fun i _ => takeSample_spec)

/-- C5 counterexample: with ticket size 26 (which exceeds the universe size
25) `gerar_jogos` does not fail and raises no `ConfigurationError` (no such
error exists anywhere in app.py): it returns the requested one-element ticket
sequence, whose single ticket holds 25 numbers instead of 26. -/
theorem gerar_jogos_invalid_size_returns_tickets :
    (gerar_jogos 1 26 (fun _ => 0) (fun _ => numeros ++ numeros)
        (fun _ => takeSample)).length = 1 ∧
    (gerar_jogos 1 26 (fun _ => 0) (fun _ => numeros ++ numeros)
        (fun _ => takeSample)).map (fun jogo => jogo.dezenas.length) = [25] ∧
    25 ≠ 26 := by
  refine ⟨rfl, by decide, by decide⟩

/-- C8: for every payload, the entries whose `int(d)` raises are skipped and
exactly the remaining well-formed entries produce the draw numbers and the
frequency counts: both computations are unchanged when the malformed entries
are removed beforehand (the whole draw is never failed, both functions being
total). -/
theorem malformed_entries_skipped (raw : List (Option Int)) :
    parse_dezenas raw = parse_dezenas (raw.filter (fun d => d.isSome)) ∧
    ∀ cnt : Int → Int,
      contadorRaw cnt raw = contadorRaw cnt (raw.filter (fun d => d.isSome)) := by
  constructor
  · unfold parse_dezenas
    congr 1
    induction raw with
    | nil => rfl
    | cons d rest ih => cases d <;> simp [ih]
  · intro cnt
    induction raw generalizing cnt with
    | nil => rfl
    | cons d rest ih =>
      cases d with
      | none => simpa [contadorRaw] using ih cnt
      | some n =>
        by_cases hn : 1 ≤ n ∧ n ≤ 25 <;>
          simp [contadorRaw, hn, ih]

/-- C7 counterexample: a payload whose (well-formed) number entries repeat a
value produces a draw whose numbers list contains a repeated value: the
fetcher does not de-duplicate. -/
theorem parse_dezenas_duplicate :
    parse_dezenas [some 5, some 5] = [5, 5] ∧
    ¬ (parse_dezenas [some 5, some 5]).Nodup ∧
    (carregar_ultimos_resultados 10
        (.ok ⟨some 3500, some [some 5, some 5], none, some "06/10/2025"⟩)
        (fun _ => .error "net")).1
      = some ⟨3500, some "06/10/2025", [5, 5]⟩ := by
  exact ⟨by decide, by decide, by decide⟩

/-- C7 (amended): for every payload, the produced numbers list is sorted
ascending, but it is not de-duplicated: it is a permutation of all the
well-formed entries, kept with multiplicity. -/
theorem parse_dezenas_sorted_not_dedup (raw : List (Option Int)) :
    (parse_dezenas raw).Sorted (· ≤ ·) ∧
    List.Perm (parse_dezenas raw) (raw.filterMap id) :=
  ⟨List.sorted_insertionSort _ _, List.perm_insertionSort _ _⟩

/-- C10: every failure of the latest-result request (network error,
non-success status, malformed JSON — all modelled by `Except.error`) or of
parsing its contest number (`int(dados_ultimo.get("numero"))` raising, modelled
by `numero = none`) makes `carregar_ultimos_resultados` return `None` in place
of the latest draw together with the all-zero frequency table over 1..25; no
exception propagates (the embedding is a total function, mirroring the early
returns at app.py lines 77 and 89). -/
theorem carregar_failure_fallback (qtd_concursos : Int)
    (fetchConcurso : Int → Except String (List (Option Int))) :
    (∀ e, carregar_ultimos_resultados qtd_concursos (.error e) fetchConcurso
        = (none, freq_zero)) ∧
    (∀ dados : PayloadUltimo, dados.numero = none →
      carregar_ultimos_resultados qtd_concursos (.ok dados) fetchConcurso
        = (none, freq_zero)) := by
  refine ⟨fun e => rfl, fun dados h => ?_⟩
  simp only [carregar_ultimos_resultados, h]

theorem carregar_failure_fallback_witness :
    carregar_ultimos_resultados 10 (.error "connection error")
        (fun _ => .error "x") = (none, freq_zero) ∧
    carregar_ultimos_resultados 10
        (.ok ⟨none, some [some 1], none, some "06/10/2025"⟩)
        (fun _ => .error "x") = (none, freq_zero) :=
  ⟨(carregar_failure_fallback 10 (fun _ => .error "x")).1 "connection error",
   (carregar_failure_fallback 10 (fun _ => .error "x")).2 _ rfl⟩

theorem contadorRaw_nonneg (raw : List (Option Int)) :
    ∀ cnt : Int → Int, (∀ m, 0 ≤ cnt m) → ∀ m, 0 ≤ contadorRaw cnt raw m := by
  induction raw with
  | nil => intro cnt h m; exact h m
  | cons d rest ih =>
    intro cnt h m
    cases d with
    | none => exact ih cnt h m
    | some n =>
      by_cases hn : 1 ≤ n ∧ n ≤ 25
      · rw [show contadorRaw cnt (some n :: rest)
            = contadorRaw (fun m' => if m' = n then cnt m' + 1 else cnt m') rest by
          simp [contadorRaw, hn]]
        refine ih _ (fun m' => ?_) m
        have := h m'
        split <;> omega
      · rw [show contadorRaw cnt (some n :: rest) = contadorRaw cnt rest by
          simp [contadorRaw, hn]]
        exact ih cnt h m

theorem contadorConcursos_nonneg (concursos : List Int)
    (fetchConcurso : Int → Except String (List (Option Int))) :
    ∀ cnt : Int → Int, (∀ m, 0 ≤ cnt m) →
      ∀ m, 0 ≤ contadorConcursos cnt concursos fetchConcurso m := by
  induction concursos with
  | nil => intro cnt h m; exact h m
  | cons concurso rest ih =>
    intro cnt h m
    cases hf : fetchConcurso concurso with
    | error e =>
      rw [show contadorConcursos cnt (concurso :: rest) fetchConcurso
          = contadorConcursos cnt rest fetchConcurso by
        simp [contadorConcursos, hf]]
      exact ih cnt h m
    | ok dezenas_raw =>
      rw [show contadorConcursos cnt (concurso :: rest) fetchConcurso
          = contadorConcursos (contadorRaw cnt dezenas_raw) rest fetchConcurso by
        simp [contadorConcursos, hf]]
      exact ih _ (contadorRaw_nonneg dezenas_raw cnt h) m

theorem frequencias_de_keys (cnt : Int → Int) :
    (frequencias_de cnt).map Prod.fst = numeros := by
  unfold frequencias_de
  rw [List.map_map]
  exact List.map_id numeros

theorem frequencias_de_nonneg (cnt : Int → Int) (h : ∀ m, 0 ≤ cnt m) :
    ∀ p ∈ frequencias_de cnt, 0 ≤ p.2 := by
  intro p hp
  obtain ⟨n, hn, rfl⟩ := List.mem_map.mp hp
  exact h n

/-- C9: every frequency table the system produces — from any sequence of
per-contest fetch outcomes on the success path, and the fallback table on the
failure paths — has exactly the keys 1..25 (in order), each mapped to a
non-negative count; an empty contest window yields the all-zero table, and
the fallback table `freq_zero` is the all-zero table over exactly 1..25. -/
theorem frequencias_fully_populated (qtd_concursos : Int)
    (respUltimo : Except String PayloadUltimo)
    (fetchConcurso : Int → Except String (List (Option Int))) :
    ((carregar_ultimos_resultados qtd_concursos respUltimo fetchConcurso).2.map
        Prod.fst = numeros ∧
     ∀ p ∈ (carregar_ultimos_resultados qtd_concursos respUltimo fetchConcurso).2,
       0 ≤ p.2) ∧
    (∀ fc : Int → Except String (List (Option Int)),
      frequencias_de (contadorConcursos (fun _ => 0) [] fc) = freq_zero) ∧
    (freq_zero.map Prod.fst = numeros ∧ ∀ p ∈ freq_zero, p.2 = 0) := by
  have hz : ∀ p ∈ freq_zero, p.2 = 0 := by
    intro p hp
    obtain ⟨n, hn, rfl⟩ := List.mem_map.mp hp
    rfl
  have hmain : ∃ cnt : Int → Int, (∀ m, 0 ≤ cnt m) ∧
      (carregar_ultimos_resultados qtd_concursos respUltimo fetchConcurso).2
        = frequencias_de cnt := by
    cases respUltimo with
    | error e => exact ⟨fun _ => 0, fun m => le_refl 0, rfl⟩
    | ok dados =>
      cases hnum : dados.numero with
      | none =>
        refine ⟨fun _ => 0, fun m => le_refl 0, ?_⟩
        simp only [carregar_ultimos_resultados, hnum]
        rfl
      | some numero_ultimo =>
        refine ⟨contadorConcursos (fun _ => 0)
            (intRange (max 1 (numero_ultimo - qtd_concursos + 1))
              (numero_ultimo + 1)) fetchConcurso, ?_, ?_⟩
        · exact contadorConcursos_nonneg _ fetchConcurso (fun _ => 0)
            (fun m => le_refl 0)
        · simp only [carregar_ultimos_resultados, hnum]
  obtain ⟨cnt, hcnt, heq⟩ := hmain
  rw [heq]
  exact ⟨⟨frequencias_de_keys cnt, frequencias_de_nonneg cnt hcnt⟩,
    fun fc => rfl, frequencias_de_keys (fun _ => 0), hz⟩

theorem frequencias_fully_populated_witness :
    (carregar_ultimos_resultados 10
        (.ok ⟨some 3500, some [some 1, some 2, none, some 30], none,
          some "06/10/2025"⟩)
        (fun c => if c = 3500 then .ok [some 1, some 2, none, some 30]
          else .error "net")).2.map Prod.fst = numeros ∧
    ∀ p ∈ (carregar_ultimos_resultados 10
        (.ok ⟨some 3500, some [some 1, some 2, none, some 30], none,
          some "06/10/2025"⟩)
        (fun c => if c = 3500 then .ok [some 1, some 2, none, some 30]
          else .error "net")).2, 0 ≤ p.2 :=
  (frequencias_fully_populated 10
    (.ok ⟨some 3500, some [some 1, some 2, none, some 30], none,
      some "06/10/2025"⟩)
    (fun c => if c = 3500 then .ok [some 1, some 2, none, some 30]
      else .error "net")).1

/-- C4 (amended): on a failing latest-result request the code performs exactly
one attempt — app.py lines 71-77 contain no retry loop and no backoff — and it
does not surface the error to its caller: the `except` clause swallows the
exception and the call returns `None` with the all-zero frequency table. -/
theorem fetch_ultimo_single_attempt (qtd_concursos : Int)
    (attempts : Nat → Except String PayloadUltimo)
    (fetchConcurso : Int → Except String (List (Option Int)))
    (e : String) (h : attempts 0 = .error e) :
    carregar_com_tentativas qtd_concursos attempts fetchConcurso
      = ((none, freq_zero), 1) := by
  simp only [carregar_com_tentativas, fetch_ultimo, h, carregar_ultimos_resultados]

theorem fetch_ultimo_single_attempt_witness :
    carregar_com_tentativas 10 (fun _ => .error "timeout") (fun _ => .error "x")
      = ((none, freq_zero), 1) :=
  fetch_ultimo_single_attempt 10 (fun _ => .error "timeout")
    (fun _ => .error "x") "timeout" rfl

/-- C4 counterexample: the upstream fails the first attempt but would succeed
from the second on, so a 3-attempt retry would obtain the good payload; the
code nonetheless performs exactly 1 attempt (not 3) and returns the fallback
`(None, all-zero table)` instead of retrying or surfacing the last error. -/
theorem fetch_retry_counterexample :
    (carregar_com_tentativas 10
        (fun i => if i = 0 then .error "connection reset" else .ok payloadA)
        (fun _ => .error "net")).2 = 1 ∧
    (1 : Nat) ≠ 3 ∧
    (carregar_com_tentativas 10
        (fun i => if i = 0 then .error "connection reset" else .ok payloadA)
        (fun _ => .error "net")).1 = (none, freq_zero) :=
  ⟨rfl, by decide, by decide⟩

/-- C6 (amended): app.py has no result cache of any kind: `index()` (line 220)
calls `carregar_ultimos_resultados` afresh on every request.  Two consecutive
calls perform two latest-result requests (one each), and the second call's
result is computed from its own fresh fetch (`attempts 1`), never from a
stored payload. -/
theorem duas_chamadas_two_fetches (qtd_concursos : Int)
    (attempts : Nat → Except String PayloadUltimo)
    (fetchConcurso : Int → Except String (List (Option Int))) :
    (duas_chamadas qtd_concursos attempts fetchConcurso).2 = 2 ∧
    (duas_chamadas qtd_concursos attempts fetchConcurso).1.2
      = carregar_ultimos_resultados qtd_concursos (attempts 1) fetchConcurso :=
  ⟨rfl, rfl⟩

/-- C6 counterexample: with an upstream whose successive attempts return
contest 100 and then contest 200, two consecutive calls perform 2 underlying
latest-result fetches — not exactly 1 as claimed — and the second call
returns the freshly fetched contest 200, not the first call's payload. -/
theorem duas_chamadas_counterexample :
    (duas_chamadas 10 (fun i => if i = 0 then .ok payloadA else .ok payloadB)
        (fun _ => .error "net")).2 = 2 ∧
    (2 : Nat) ≠ 1 ∧
    (duas_chamadas 10 (fun i => if i = 0 then .ok payloadA else .ok payloadB)
        (fun _ => .error "net")).1.1.1
      = some ⟨100, some "01/10/2025", [1, 2]⟩ ∧
    (duas_chamadas 10 (fun i => if i = 0 then .ok payloadA else .ok payloadB)
        (fun _ => .error "net")).1.2.1
      = some ⟨200, some "02/10/2025", [3]⟩ ∧
    (duas_chamadas 10 (fun i => if i = 0 then .ok payloadA else .ok payloadB)
        (fun _ => .error "net")).1.2.1
      ≠ (duas_chamadas 10 (fun i => if i = 0 then .ok payloadA else .ok payloadB)
        (fun _ => .error "net")).1.1.1 :=
  ⟨rfl, by decide, by decide, by decide, by decide⟩
